import Mathlib

/-!
Verification development for the astrological computation core of the
MetaLoan/starbase repository (TypeScript sources under src/).

The numeric model: JavaScript numbers are modelled by elements of a linear
ordered field.  Pure arithmetic (angle normalization, Julian-day conversion,
aspect geometry, the influence-factor pipeline, progression date arithmetic)
is instantiated at the rationals, where every definition is executable.
The trigonometric parts of the ephemeris engine (sun position, planet
position) are instantiated at the reals with the genuine sin/cos/atan2
functions.
-/

namespace Starbase

/-- Truncation toward zero, as used by the JavaScript `%` operator:
`Math.trunc(x)`, i.e. the ceiling for negative arguments and the floor
otherwise. -/
def jsTrunc {K : Type*} [LinearOrderedField K] [FloorRing K] (x : K) : ℤ :=
  if x < 0 then ⌈x⌉ else ⌊x⌋

/-- The JavaScript remainder operator `a % b`: the remainder of truncated
division, carrying the sign of the dividend. -/
def jsMod {K : Type*} [LinearOrderedField K] [FloorRing K] (a b : K) : K :=
  a - b * (jsTrunc (a / b) : K)

/-- Embeds `normalizeAngle` (ephemeris module, lines 537-541): reduce the
angle with the JS `%` operator and add 360 if the remainder is negative. -/
def normalizeAngle {K : Type*} [LinearOrderedField K] [FloorRing K] (angle : K) : K :=
  let result := jsMod angle 360
  if result < 0 then result + 360 else result

section NormalizeLemmas

variable {K : Type*} [LinearOrderedField K] [FloorRing K]

theorem normalizeAngle_eq_fract (x : K) :
    normalizeAngle x = 360 * Int.fract (x / 360) := by
  unfold normalizeAngle jsMod jsTrunc
  set q : K := x / 360 with hq
  have hx : x = 360 * q := by
    field_simp [hq]
  by_cases hneg : q < 0
  · simp only [if_pos hneg]
    by_cases hfr : Int.fract q = 0
    · have hfloor : (⌊q⌋ : K) = q := by
        unfold Int.fract at hfr
        linarith
      have hceil : ⌈q⌉ = ⌊q⌋ := by
        rw [show q = ((⌊q⌋ : ℤ) : K) from hfloor.symm, Int.ceil_intCast, Int.floor_intCast]
      rw [hceil]
      have hzero : x - 360 * (⌊q⌋ : K) = 0 := by
        rw [hx, hfloor]; ring
      rw [hzero]
      simp [hfr]
    · have hceil : ⌈q⌉ = ⌊q⌋ + 1 := by
        refine le_antisymm (Int.ceil_le_floor_add_one q) ?_
        have h1 : (⌊q⌋ : K) < q := by
          have h0 := Int.fract_nonneg q
          have h2 : 0 < Int.fract q := lt_of_le_of_ne h0 (Ne.symm hfr)
          unfold Int.fract at h2
          linarith
        exact Int.add_one_le_iff.mpr (Int.lt_ceil.mpr h1)
      rw [hceil]
      have hval : x - 360 * ((⌊q⌋ + 1 : ℤ) : K) = 360 * (Int.fract q - 1) := by
        rw [hx]
        push_cast
        unfold Int.fract
        ring
      have hlt : x - 360 * ((⌊q⌋ + 1 : ℤ) : K) < 0 := by
        rw [hval]
        have := Int.fract_lt_one q
        nlinarith
      rw [if_pos hlt, hval]
      unfold Int.fract
      ring
  · simp only [if_neg hneg]
    have hval : x - 360 * ((⌊q⌋ : ℤ) : K) = 360 * Int.fract q := by
      rw [hx]
      unfold Int.fract
      ring
    have hnn : ¬(x - 360 * ((⌊q⌋ : ℤ) : K) < 0) := by
      rw [hval]
      have := Int.fract_nonneg q
      push_neg
      nlinarith
    rw [if_neg hnn, hval]

theorem normalizeAngle_nonneg (x : K) : 0 ≤ normalizeAngle x := by
  rw [normalizeAngle_eq_fract]
  have := Int.fract_nonneg (x / 360)
  nlinarith

theorem normalizeAngle_lt_360 (x : K) : normalizeAngle x < 360 := by
  rw [normalizeAngle_eq_fract]
  have := Int.fract_lt_one (x / 360)
  nlinarith

theorem normalizeAngle_eq_self {x : K} (h0 : 0 ≤ x) (h1 : x < 360) :
    normalizeAngle x = x := by
  rw [normalizeAngle_eq_fract]
  have hfr : Int.fract (x / 360) = x / 360 := by
    rw [Int.fract_eq_self]
    constructor
    · positivity
    · rw [div_lt_one (by norm_num : (0:K) < 360)]; exact h1
  rw [hfr]
  field_simp

theorem normalizeAngle_idem (x : K) :
    normalizeAngle (normalizeAngle x) = normalizeAngle x :=
  normalizeAngle_eq_self (normalizeAngle_nonneg x) (normalizeAngle_lt_360 x)

theorem normalizeAngle_add_int_mul (x : K) (k : ℤ) :
    normalizeAngle (x + 360 * (k : K)) = normalizeAngle x := by
  rw [normalizeAngle_eq_fract, normalizeAngle_eq_fract]
  have : (x + 360 * (k : K)) / 360 = x / 360 + (k : K) := by
    field_simp
    ring
  rw [this, Int.fract_add_int]

theorem normalizeAngle_congr {x y : K} (k : ℤ) (h : x - y = 360 * (k : K)) :
    normalizeAngle x = normalizeAngle y := by
  have hx : x = y + 360 * (k : K) := by linarith
  rw [hx]
  exact normalizeAngle_add_int_mul y k

theorem normalizeAngle_neg (x : K) :
    normalizeAngle (-x) = if normalizeAngle x = 0 then 0 else 360 - normalizeAngle x := by
  rw [normalizeAngle_eq_fract, normalizeAngle_eq_fract]
  have hdiv : (-x) / 360 = -(x / 360) := by ring
  rw [hdiv]
  by_cases hfr : Int.fract (x / 360) = 0
  · rw [if_pos (by rw [hfr]; ring)]
    rw [Int.fract_neg_eq_zero.mpr hfr]
    ring
  · rw [if_neg (by intro hc; exact hfr (by nlinarith))]
    rw [Int.fract_neg hfr]
    ring

end NormalizeLemmas

/-- Claim C9: for every angle θ, `normalizeAngle θ` lies in `[0, 360)` and
`normalizeAngle` is idempotent.  Stated over the reals, which contain every
JavaScript number. -/
theorem normalizeAngle_mem_Ico_and_idem (θ : ℝ) :
    0 ≤ normalizeAngle θ ∧ normalizeAngle θ < 360 ∧
      normalizeAngle (normalizeAngle θ) = normalizeAngle θ :=
  ⟨normalizeAngle_nonneg θ, normalizeAngle_lt_360 θ, normalizeAngle_idem θ⟩

/-! ### Julian day conversion (ephemeris module, lines 477-499)

`dateToJulianDay` reads the UTC calendar fields of its `Date` argument; it is
embedded as a function of those fields.  `Math.floor` is the integer floor. -/

/-- Embeds `dateToJulianDay`: the standard proleptic-Gregorian Julian-day
algorithm, where `day` carries the fractional time of day. -/
def dateToJulianDay (year month dayOfMonth : ℤ) (hours minutes seconds : ℚ) : ℚ :=
  let day : ℚ := (dayOfMonth : ℚ) + hours / 24 + minutes / 1440 + seconds / 86400
  let y : ℤ := if month ≤ 2 then year - 1 else year
  let m : ℤ := if month ≤ 2 then month + 12 else month
  let A : ℤ := ⌊(y : ℚ) / 100⌋
  let B : ℤ := 2 - A + ⌊(A : ℚ) / 4⌋
  ((⌊(365.25 : ℚ) * ((y : ℚ) + 4716)⌋ : ℤ) : ℚ) +
    ((⌊(30.6001 : ℚ) * ((m : ℚ) + 1)⌋ : ℤ) : ℚ) + day + (B : ℚ) - 1524.5

/-! ### Real-valued ephemeris engine (ephemeris module, lines 459-940) -/

/-- Degrees-to-radians factor `DEG_TO_RAD` from the ephemeris module. -/
noncomputable def DEG_TO_RAD : ℝ := Real.pi / 180

/-- Radians-to-degrees factor `RAD_TO_DEG` from the ephemeris module. -/
noncomputable def RAD_TO_DEG : ℝ := 180 / Real.pi

/-- The `J2000` Julian-day constant from the ephemeris module. -/
noncomputable def J2000 : ℝ := 2451545.0

/-- Result record of the position functions: ecliptic longitude, latitude and
distance. -/
structure EclipticPosition where
  longitude : ℝ
  latitude : ℝ
  distance : ℝ

/-- JavaScript `Math.atan2 y x`, modelled by the complex argument function
(both have range `(-pi, pi]` and send the origin to `0`). -/
noncomputable def atan2 (y x : ℝ) : ℝ := Complex.arg ⟨x, y⟩

/-- Embeds `calculateSunPosition` (lines 726-749): truncated series for the
geocentric apparent solar longitude. -/
noncomputable def calculateSunPosition (jd : ℝ) : EclipticPosition :=
  let T := (jd - 2451545.0) / 36525
  let L0 := normalizeAngle (280.4664567 + 36000.76983 * T + 0.0003032 * T * T)
  let M := normalizeAngle (357.5291092 + 35999.0502909 * T) * DEG_TO_RAD
  let C := (1.9146 - 0.004817 * T - 0.000014 * T * T) * Real.sin M
         + (0.019993 - 0.000101 * T) * Real.sin (2 * M)
         + 0.00029 * Real.sin (3 * M)
  let longitude := normalizeAngle (L0 + C)
  let e := 0.016708634 - 0.000042037 * T
  let v := M + C * DEG_TO_RAD
  let distance := 1.000001018 * (1 - e * e) / (1 + e * Real.cos v)
  ⟨longitude, 0, distance⟩

/-- Embeds `calculateMoonPosition` (lines 754-791): leading terms of the
lunar theory. -/
noncomputable def calculateMoonPosition (jd : ℝ) : EclipticPosition :=
  let T := (jd - 2451545.0) / 36525
  let L := normalizeAngle (218.3164477 + 481267.88123421 * T)
  let M := normalizeAngle (134.9633964 + 477198.8675055 * T) * DEG_TO_RAD
  let Ms := normalizeAngle (357.5291092 + 35999.0502909 * T) * DEG_TO_RAD
  let D := normalizeAngle (297.8501921 + 445267.1114034 * T) * DEG_TO_RAD
  let F := normalizeAngle (93.2720950 + 483202.0175233 * T) * DEG_TO_RAD
  let longitude := L
    + 6.289 * Real.sin M
    - 1.274 * Real.sin (2 * D - M)
    + 0.658 * Real.sin (2 * D)
    + 0.214 * Real.sin (2 * M)
    - 0.186 * Real.sin Ms
    - 0.114 * Real.sin (2 * F)
  let latitude := 5.128 * Real.sin F
    + 0.281 * Real.sin (M + F)
    - 0.278 * Real.sin (F - M)
    - 0.173 * Real.sin (F - 2 * D)
  let distance := 385000.56 / 6378.14
  ⟨normalizeAngle longitude, latitude, distance⟩

/-- Embeds `calculateNorthNodePosition` (lines 796-803). -/
noncomputable def calculateNorthNodePosition (jd : ℝ) : EclipticPosition :=
  let T := (jd - 2451545.0) / 36525
  let O := normalizeAngle (125.0445479 - 1934.1362891 * T)
  ⟨O, 0, 1⟩

/-- Embeds `calculateHeliocentricEarth` (lines 695-721): heliocentric Earth
coordinates placed opposite the computed Sun longitude. -/
noncomputable def calculateHeliocentricEarth (jd : ℝ) : ℝ × ℝ × ℝ :=
  let T := (jd - 2451545.0) / 36525
  let L0 := normalizeAngle (280.4664567 + 36000.76983 * T + 0.0003032 * T * T)
  let M := normalizeAngle (357.5291092 + 35999.0502909 * T) * DEG_TO_RAD
  let C := (1.9146 - 0.004817 * T) * Real.sin M
         + (0.019993 - 0.000101 * T) * Real.sin (2 * M)
         + 0.00029 * Real.sin (3 * M)
  let sunLongitude := normalizeAngle (L0 + C)
  let earthLongitude := normalizeAngle (sunLongitude + 180)
  let e := 0.016708634 - 0.000042037 * T
  let v := M + C * DEG_TO_RAD
  let r := 1.000001018 * (1 - e * e) / (1 + e * Real.cos v)
  let lonRad := earthLongitude * DEG_TO_RAD
  (r * Real.cos lonRad, r * Real.sin lonRad, 0)

/-- Fixed-iteration Kepler solver: the source runs `E = M + e*sin(E)` for a
fixed number of passes starting from `E = M`. -/
noncomputable def keplerSolve (M e : ℝ) : ℕ → ℝ
  | 0 => M
  | n + 1 => M + e * Real.sin (keplerSolve M e n)

/-- Embeds `calculateChironPosition` (lines 808-851). -/
noncomputable def calculateChironPosition (jd : ℝ) : EclipticPosition :=
  let a : ℝ := 13.648
  let e : ℝ := 0.3814
  let i := 6.931 * DEG_TO_RAD
  let O := 209.35 * DEG_TO_RAD
  let w := 339.55 * DEG_TO_RAD
  let n : ℝ := 0.01953
  let M := normalizeAngle (78.0 + n * (jd - 2451545.0)) * DEG_TO_RAD
  let E := keplerSolve M e 10
  let xv := a * (Real.cos E - e)
  let yv := a * Real.sqrt (1 - e * e) * Real.sin E
  let v := atan2 yv xv
  let r := Real.sqrt (xv * xv + yv * yv)
  let lw := v + w
  let xh := r * (Real.cos O * Real.cos lw - Real.sin O * Real.sin lw * Real.cos i)
  let yh := r * (Real.sin O * Real.cos lw + Real.cos O * Real.sin lw * Real.cos i)
  let zh := r * Real.sin lw * Real.sin i
  let earthPos := calculateHeliocentricEarth jd
  let xg := xh - earthPos.1
  let yg := yh - earthPos.2.1
  let zg := zh - earthPos.2.2
  let longitude := normalizeAngle (atan2 yg xg * RAD_TO_DEG)
  let latitude := atan2 zg (Real.sqrt (xg * xg + yg * yg)) * RAD_TO_DEG
  let distance := Real.sqrt (xg * xg + yg * yg + zg * zg)
  ⟨longitude, latitude, distance⟩

/-- Osculating orbital elements and their per-century rates, as in the
`ORBITAL_ELEMENTS` table. -/
structure OrbitalElements where
  a : ℝ
  e : ℝ
  i : ℝ
  L : ℝ
  w : ℝ
  O : ℝ
  aRate : ℝ
  eRate : ℝ
  iRate : ℝ
  LRate : ℝ
  wRate : ℝ
  ORate : ℝ

/-- Embeds the `ORBITAL_ELEMENTS` record (lines 571-608): nine entries keyed
by planet identifier, including `earth`. -/
noncomputable def ORBITAL_ELEMENTS (planetId : String) : Option OrbitalElements :=
  if planetId = "mercury" then some
    ⟨0.38709927, 0.20563593, 7.00497902, 252.25032350, 77.45779628, 48.33076593,
     0.00000037, 0.00001906, -0.00594749, 149472.67411175, 0.16047689, -0.12534081⟩
  else if planetId = "venus" then some
    ⟨0.72333566, 0.00677672, 3.39467605, 181.97909950, 131.60246718, 76.67984255,
     0.00000390, -0.00004107, -0.00078890, 58517.81538729, 0.00268329, -0.27769418⟩
  else if planetId = "earth" then some
    ⟨1.00000261, 0.01671123, -0.00001531, 100.46457166, 102.93768193, 0.0,
     0.00000562, -0.00004392, -0.01294668, 35999.37244981, 0.32327364, 0.0⟩
  else if planetId = "mars" then some
    ⟨1.52371034, 0.09339410, 1.84969142, -4.55343205, -23.94362959, 49.55953891,
     0.00001847, 0.00007882, -0.00813131, 19140.30268499, 0.44441088, -0.29257343⟩
  else if planetId = "jupiter" then some
    ⟨5.20288700, 0.04838624, 1.30439695, 34.39644051, 14.72847983, 100.47390909,
     -0.00011607, -0.00013253, -0.00183714, 3034.74612775, 0.21252668, 0.20469106⟩
  else if planetId = "saturn" then some
    ⟨9.53667594, 0.05386179, 2.48599187, 49.95424423, 92.59887831, 113.66242448,
     -0.00125060, -0.00050991, 0.00193609, 1222.49362201, -0.41897216, -0.28867794⟩
  else if planetId = "uranus" then some
    ⟨19.18916464, 0.04725744, 0.77263783, 313.23810451, 170.95427630, 74.01692503,
     -0.00196176, -0.00004397, -0.00242939, 428.48202785, 0.40805281, 0.04240589⟩
  else if planetId = "neptune" then some
    ⟨30.06992276, 0.00859048, 1.77004347, -55.12002969, 44.96476227, 131.78422574,
     0.00026291, 0.00005105, 0.00035372, 218.45945325, -0.32241464, -0.00508664⟩
  else if planetId = "pluto" then some
    ⟨39.48211675, 0.24882730, 17.14001206, 238.92903833, 224.06891629, 110.30393684,
     -0.00031596, 0.00005170, 0.00004818, 145.20780515, -0.04062942, -0.01183482⟩
  else none

/-- Embeds `calculatePlanetPosition` (lines 613-689).  The JS `throw` of
`Unknown planet: ...` is modelled by `Except.error`; every other path
returns `Except.ok`. -/
noncomputable def calculatePlanetPosition (planetId : String) (jd : ℝ) :
    Except String EclipticPosition :=
  if planetId = "sun" then .ok (calculateSunPosition jd)
  else if planetId = "moon" then .ok (calculateMoonPosition jd)
  else if planetId = "northNode" then .ok (calculateNorthNodePosition jd)
  else if planetId = "chiron" then .ok (calculateChironPosition jd)
  else
    match ORBITAL_ELEMENTS planetId with
    | none => .error ("Unknown planet: " ++ planetId)
    | some elements =>
      let T := (jd - 2451545.0) / 36525
      let a := elements.a + elements.aRate * T
      let e := elements.e + elements.eRate * T
      let i := (elements.i + elements.iRate * T) * DEG_TO_RAD
      let L := normalizeAngle (elements.L + elements.LRate * T)
      let w := normalizeAngle (elements.w + elements.wRate * T)
      let O := normalizeAngle (elements.O + elements.ORate * T)
      let M := normalizeAngle (L - w) * DEG_TO_RAD
      let E := keplerSolve M e 10
      let xv := a * (Real.cos E - e)
      let yv := a * Real.sqrt (1 - e * e) * Real.sin E
      let v := atan2 yv xv * RAD_TO_DEG
      let r := Real.sqrt (xv * xv + yv * yv)
      let u := normalizeAngle (v + w - O) * DEG_TO_RAD
      let iRad := i
      let ORad := O * DEG_TO_RAD
      let xh := r * (Real.cos ORad * Real.cos u - Real.sin ORad * Real.sin u * Real.cos iRad)
      let yh := r * (Real.sin ORad * Real.cos u + Real.cos ORad * Real.sin u * Real.cos iRad)
      let zh := r * Real.sin u * Real.sin iRad
      let earthPos := calculateHeliocentricEarth jd
      let xg := xh - earthPos.1
      let yg := yh - earthPos.2.1
      let zg := zh - earthPos.2.2
      let longitude := normalizeAngle (atan2 yg xg * RAD_TO_DEG)
      let latitude := atan2 zg (Real.sqrt (xg * xg + yg * yg)) * RAD_TO_DEG
      let distance := Real.sqrt (xg * xg + yg * yg + zg * zg)
      .ok ⟨longitude, latitude, distance⟩

/-- The twelve celestial-body identifiers of the `PLANETS` constant
(constants module): the bodies of the system's data model. -/
def planetIdList : List String :=
  ["sun", "moon", "mercury", "venus", "mars", "jupiter", "saturn",
   "uranus", "neptune", "pluto", "northNode", "chiron"]

/-- The identifiers that `calculatePlanetPosition` actually handles: the four
special-cased bodies plus the nine `ORBITAL_ELEMENTS` keys. -/
def recognizedEphemerisIds : List String :=
  ["sun", "moon", "northNode", "chiron", "mercury", "venus", "earth",
   "mars", "jupiter", "saturn", "uranus", "neptune", "pluto"]

theorem orbitalElements_none_iff (s : String) :
    ORBITAL_ELEMENTS s = none ↔
      s ∉ ["mercury", "venus", "earth", "mars", "jupiter", "saturn",
           "uranus", "neptune", "pluto"] := by
  unfold ORBITAL_ELEMENTS
  split_ifs with h1 h2 h3 h4 h5 h6 h7 h8 h9 <;> simp_all

/-- Claim C4 counterexample: the identifier `earth` is not one of the twelve
celestial bodies of the data model, yet `calculatePlanetPosition` succeeds on
it instead of failing with `UnknownBody`. -/
theorem calculatePlanetPosition_earth_counterexample :
    "earth" ∉ planetIdList ∧ (calculatePlanetPosition "earth" 0).isOk = true :=
  ⟨by decide, rfl⟩

/-- Claim C4 (amended): `calculatePlanetPosition` fails, with exactly the
`Unknown planet` error, precisely when the identifier is outside the
thirteen handled identifiers (the twelve bodies plus `earth`); on every
handled identifier it returns a position for every Julian day, with no other
failure mode. -/
theorem calculatePlanetPosition_error_iff (planetId : String) (jd : ℝ) :
    calculatePlanetPosition planetId jd = .error ("Unknown planet: " ++ planetId) ↔
      planetId ∉ recognizedEphemerisIds := by
  unfold calculatePlanetPosition
  split_ifs with h1 h2 h3 h4
  · simp [recognizedEphemerisIds, h1]
  · simp [recognizedEphemerisIds, h2]
  · simp [recognizedEphemerisIds, h3]
  · simp [recognizedEphemerisIds, h4]
  · rcases horb : ORBITAL_ELEMENTS planetId with _ | e
    · have hmem := (orbitalElements_none_iff planetId).mp horb
      simp only [horb]
      simp_all [recognizedEphemerisIds]
    · have hmem : planetId ∈ ["mercury", "venus", "earth", "mars", "jupiter",
          "saturn", "uranus", "neptune", "pluto"] := by
        by_contra hc
        rw [(orbitalElements_none_iff planetId).mpr hc] at horb
        exact Option.noConfusion horb
      simp only [horb]
      simp_all [recognizedEphemerisIds]

set_option maxHeartbeats 1000000 in
/-- Claim C8: `dateToJulianDay` maps 2000-01-01T12:00:00Z to exactly
2451545.0, and the Sun's ecliptic longitude computed at that Julian day is
within 1 degree of 280.5 degrees. -/
theorem julianDay_and_sun_longitude_at_j2000 :
    dateToJulianDay 2000 1 1 12 0 0 = 2451545 ∧
      |(calculateSunPosition 2451545).longitude - 280.5| ≤ 1 := by
  constructor
  · simp only [dateToJulianDay]
    norm_num
  · set T0 : ℝ := ((2451545 : ℝ) - 2451545.0) / 36525 with hT0def
    have hlong : (calculateSunPosition 2451545).longitude
        = normalizeAngle
            (normalizeAngle ((280.4664567 : ℝ) + 36000.76983 * T0 + 0.0003032 * T0 * T0) +
              ((1.9146 - 0.004817 * T0 - 0.000014 * T0 * T0) *
                  Real.sin (normalizeAngle (357.5291092 + 35999.0502909 * T0) * DEG_TO_RAD) +
                (0.019993 - 0.000101 * T0) *
                  Real.sin (2 * (normalizeAngle (357.5291092 + 35999.0502909 * T0) * DEG_TO_RAD)) +
                0.00029 *
                  Real.sin (3 * (normalizeAngle (357.5291092 + 35999.0502909 * T0) * DEG_TO_RAD)))) :=
      rfl
    have hT0 : T0 = 0 := by rw [hT0def]; norm_num
    rw [hT0] at hlong
    have e1 : (280.4664567 : ℝ) + 36000.76983 * 0 + 0.0003032 * 0 * 0 = 280.4664567 := by
      norm_num
    have e2 : (357.5291092 : ℝ) + 35999.0502909 * 0 = 357.5291092 := by norm_num
    have e3 : (1.9146 : ℝ) - 0.004817 * 0 - 0.000014 * 0 * 0 = 1.9146 := by norm_num
    have e4 : (0.019993 : ℝ) - 0.000101 * 0 = 0.019993 := by norm_num
    rw [e1, e2, e3, e4] at hlong
    have hM357 : normalizeAngle (357.5291092 : ℝ) = 357.5291092 :=
      normalizeAngle_eq_self (by norm_num) (by norm_num)
    rw [hM357] at hlong
    have hL0 : normalizeAngle (280.4664567 : ℝ) = 280.4664567 :=
      normalizeAngle_eq_self (by norm_num) (by norm_num)
    rw [hL0] at hlong
    set M : ℝ := 357.5291092 * DEG_TO_RAD with hMdef
    have hpi_pos := Real.pi_pos
    have hpi_lt : Real.pi < 3.15 := Real.pi_lt_d2
    have hdiff : M - 2 * Real.pi = -(2.4708908 / 180) * Real.pi := by
      rw [hMdef]; unfold DEG_TO_RAD; ring
    have habs : |M - 2 * Real.pi| ≤ 0.0433 := by
      rw [hdiff, abs_mul, abs_neg,
        abs_of_nonneg (by norm_num : (0:ℝ) ≤ 2.4708908 / 180),
        abs_of_nonneg hpi_pos.le]
      nlinarith
    have habs2 := abs_le.mp habs
    have hsin1 : |Real.sin M| ≤ 0.0433 := by
      calc |Real.sin M| = |Real.sin (M - 2 * Real.pi)| := by rw [Real.sin_sub_two_pi]
        _ ≤ |M - 2 * Real.pi| := Real.abs_sin_le_abs
        _ ≤ 0.0433 := habs
    have hsin2 : |Real.sin (2 * M)| ≤ 0.0866 := by
      have harg : 2 * M - (2 : ℤ) * (2 * Real.pi) = 2 * (M - 2 * Real.pi) := by
        push_cast; ring
      calc |Real.sin (2 * M)|
          = |Real.sin (2 * M - (2 : ℤ) * (2 * Real.pi))| := by
            rw [Real.sin_sub_int_mul_two_pi]
        _ = |Real.sin (2 * (M - 2 * Real.pi))| := by rw [harg]
        _ ≤ |2 * (M - 2 * Real.pi)| := Real.abs_sin_le_abs
        _ = 2 * |M - 2 * Real.pi| := by
            rw [abs_mul, abs_of_nonneg (by norm_num : (0:ℝ) ≤ 2)]
        _ ≤ 0.0866 := by linarith
    have hsin3 : |Real.sin (3 * M)| ≤ 0.13 := by
      have harg : 3 * M - (3 : ℤ) * (2 * Real.pi) = 3 * (M - 2 * Real.pi) := by
        push_cast; ring
      calc |Real.sin (3 * M)|
          = |Real.sin (3 * M - (3 : ℤ) * (2 * Real.pi))| := by
            rw [Real.sin_sub_int_mul_two_pi]
        _ = |Real.sin (3 * (M - 2 * Real.pi))| := by rw [harg]
        _ ≤ |3 * (M - 2 * Real.pi)| := Real.abs_sin_le_abs
        _ = 3 * |M - 2 * Real.pi| := by
            rw [abs_mul, abs_of_nonneg (by norm_num : (0:ℝ) ≤ 3)]
        _ ≤ 0.13 := by linarith
    have hs1 := abs_le.mp hsin1
    have hs2 := abs_le.mp hsin2
    have hs3 := abs_le.mp hsin3
    set C : ℝ := 1.9146 * Real.sin M + 0.019993 * Real.sin (2 * M) +
        0.00029 * Real.sin (3 * M) with hCdef
    have hClow : -(0.085 : ℝ) ≤ C := by rw [hCdef]; nlinarith [hs1.1, hs2.1, hs3.1]
    have hChigh : C ≤ (0.085 : ℝ) := by rw [hCdef]; nlinarith [hs1.2, hs2.2, hs3.2]
    have hfin : normalizeAngle ((280.4664567 : ℝ) + C) = 280.4664567 + C :=
      normalizeAngle_eq_self (by linarith) (by linarith)
    rw [hlong, hfin, abs_le]
    refine ⟨by linarith, by linarith⟩

/-! ### Aspect detection (aspects module, lines 1-70, and `angleDifference`
from the ephemeris module, lines 546-551).  Angle arithmetic is rational. -/

/-- Embeds `angleDifference`: shortest angular distance between two angles,
written with the two sequential conditional adjustments of the source. -/
def angleDifference (angle1 angle2 : ℚ) : ℚ :=
  let diff := normalizeAngle angle1 - normalizeAngle angle2
  let diff2 := if diff > 180 then diff - 360 else diff
  let diff3 := if diff2 < -180 then diff2 + 360 else diff2
  |diff3|

/-- Embeds a `PlanetPosition` record of the aspects module; `speed` is the
optional angular speed. -/
structure PlanetPosition where
  id : String
  longitude : ℚ
  latitude : ℚ
  speed : Option ℚ := none

/-- Embeds one entry of the `ASPECTS` constant (constants module). -/
structure AspectDef where
  id : String
  name : String
  angle : ℚ
  orb : ℚ
  harmony : String
  weight : ℚ

/-- Embeds the `AspectData` record. -/
structure AspectData where
  planet1 : String
  planet2 : String
  aspectType : String
  exactAngle : ℚ
  actualAngle : ℚ
  orb : ℚ
  applying : Bool
  strength : ℚ
  weight : ℚ

/-- Embeds the `PLANET_WEIGHTS` constant. -/
def PLANET_WEIGHTS (planetId : String) : Option ℚ :=
  if planetId = "sun" then some 10
  else if planetId = "moon" then some 10
  else if planetId = "mercury" then some 6
  else if planetId = "venus" then some 6
  else if planetId = "mars" then some 6
  else if planetId = "jupiter" then some 8
  else if planetId = "saturn" then some 8
  else if planetId = "uranus" then some 4
  else if planetId = "neptune" then some 4
  else if planetId = "pluto" then some 4
  else if planetId = "northNode" then some 3
  else if planetId = "chiron" then some 2
  else none

/-- The applying/separating computation inside `detectAspect` (lines 44-49):
with both speeds available, the JS boolean
`(diff < 180 && rel > 0) || (diff >= 180 && rel < 0)`; otherwise the
default `true`. -/
def applyingFlag (planet1 planet2 : PlanetPosition) : Bool :=
  match planet1.speed, planet2.speed with
  | some s1, some s2 =>
    decide ((normalizeAngle (planet2.longitude - planet1.longitude) < 180 ∧ s1 - s2 > 0) ∨
            (normalizeAngle (planet2.longitude - planet1.longitude) ≥ 180 ∧ s1 - s2 < 0))
  | _, _ => true

/-- Embeds `detectAspect` (aspects module, lines 31-70). -/
def detectAspect (planet1 planet2 : PlanetPosition) (aspectDef : AspectDef) :
    Option AspectData :=
  let actualAngle := angleDifference planet1.longitude planet2.longitude
  let orb := |actualAngle - aspectDef.angle|
  if orb ≤ aspectDef.orb then
    let strength := 1 - orb / aspectDef.orb
    let applying := applyingFlag planet1 planet2
    let p1Weight := (PLANET_WEIGHTS planet1.id).getD 1
    let p2Weight := (PLANET_WEIGHTS planet2.id).getD 1
    let weight := strength * aspectDef.weight * (p1Weight + p2Weight) / 20
    some ⟨planet1.id, planet2.id, aspectDef.id, aspectDef.angle, actualAngle, orb,
          applying, strength, weight⟩
  else
    none

/-- The pair-angle geometry of a detected aspect: everything except the
body identifiers and the applying flag. -/
def aspectGeom (a : AspectData) : String × ℚ × ℚ × ℚ × ℚ × ℚ :=
  (a.aspectType, a.exactAngle, a.actualAngle, a.orb, a.strength, a.weight)

theorem abs_eq_abs_of_eq_neg {u v : ℚ} (h : u = -v) : |u| = |v| := by
  rw [h, abs_neg]

theorem angleDifference_symm (a b : ℚ) :
    angleDifference b a = angleDifference a b := by
  have ha0 := normalizeAngle_nonneg a
  have ha1 := normalizeAngle_lt_360 a
  have hb0 := normalizeAngle_nonneg b
  have hb1 := normalizeAngle_lt_360 b
  simp only [angleDifference]
  split_ifs <;>
    first
      | linarith
      | exact abs_eq_abs_of_eq_neg (by ring)

theorem normalizeAngle_sub_swap {a b : ℚ} (h : normalizeAngle (b - a) ≠ 0) :
    normalizeAngle (a - b) = 360 - normalizeAngle (b - a) := by
  have := normalizeAngle_neg (K := ℚ) (b - a)
  rw [show -(b - a) = a - b by ring] at this
  rw [this, if_neg h]

theorem normalizeAngle_sub_swap_zero {a b : ℚ} (h : normalizeAngle (b - a) = 0) :
    normalizeAngle (a - b) = 0 := by
  have := normalizeAngle_neg (K := ℚ) (b - a)
  rw [show -(b - a) = a - b by ring] at this
  rw [this, if_pos h]

theorem applyingFlag_swap (p1 p2 : PlanetPosition) (s1 s2 : ℚ)
    (h1 : p1.speed = some s1) (h2 : p2.speed = some s2)
    (hne0 : normalizeAngle (p2.longitude - p1.longitude) ≠ 0)
    (hne180 : normalizeAngle (p2.longitude - p1.longitude) ≠ 180) :
    applyingFlag p2 p1 = applyingFlag p1 p2 := by
  unfold applyingFlag
  rw [h1, h2]
  have hb0 := normalizeAngle_nonneg (K := ℚ) (p2.longitude - p1.longitude)
  have hb1 := normalizeAngle_lt_360 (K := ℚ) (p2.longitude - p1.longitude)
  rw [normalizeAngle_sub_swap hne0]
  rw [decide_eq_decide]
  constructor
  · rintro (⟨ha, hb⟩ | ⟨ha, hb⟩)
    · right
      constructor <;> linarith
    · left
      refine ⟨?_, by linarith⟩
      rcases lt_or_le (normalizeAngle (p2.longitude - p1.longitude)) 180 with h | h
      · exact h
      · exfalso
        rcases lt_or_eq_of_le h with h' | h'
        · linarith
        · exact hne180 h'.symm
  · rintro (⟨ha, hb⟩ | ⟨ha, hb⟩)
    · right
      constructor <;> linarith
    · left
      have hgt : 180 < normalizeAngle (p2.longitude - p1.longitude) :=
        lt_of_le_of_ne ha (Ne.symm hne180)
      constructor <;> linarith

theorem applyingFlag_swap_flip (p1 p2 : PlanetPosition) (s1 s2 : ℚ)
    (h1 : p1.speed = some s1) (h2 : p2.speed = some s2)
    (hdeg : normalizeAngle (p2.longitude - p1.longitude) = 0 ∨
      normalizeAngle (p2.longitude - p1.longitude) = 180)
    (hne : s1 ≠ s2) :
    applyingFlag p2 p1 = !(applyingFlag p1 p2) := by
  unfold applyingFlag
  rw [h1, h2, ← decide_not, decide_eq_decide]
  rcases hdeg with hd | hd
  · rw [normalizeAngle_sub_swap_zero hd, hd]
    constructor
    · rintro (⟨-, hb⟩ | ⟨ha, -⟩)
      · rintro (⟨-, hc⟩ | ⟨hc, -⟩) <;> linarith
      · intro _
        linarith
    · intro hn
      rcases lt_trichotomy s1 s2 with hlt | heq | hgt
      · exact Or.inl ⟨by norm_num, by linarith⟩
      · exact absurd heq hne
      · exact absurd (Or.inl ⟨by norm_num, by linarith⟩) hn
  · rw [normalizeAngle_sub_swap (by rw [hd]; norm_num), hd]
    have h360 : (360 : ℚ) - 180 = 180 := by norm_num
    rw [h360]
    constructor
    · rintro (⟨ha, -⟩ | ⟨-, hb⟩)
      · exact absurd ha (by norm_num)
      · rintro (⟨hc, -⟩ | ⟨-, hc⟩) <;> linarith
    · intro hn
      rcases lt_trichotomy s1 s2 with hlt | heq | hgt
      · exact absurd (Or.inr ⟨by norm_num, by linarith⟩) hn
      · exact absurd heq hne
      · exact Or.inr ⟨by norm_num, by linarith⟩

theorem applyingFlag_default (p1 p2 : PlanetPosition)
    (h : p1.speed = none ∨ p2.speed = none) :
    applyingFlag p1 p2 = true ∧ applyingFlag p2 p1 = true := by
  rcases hx : p1.speed with _ | s <;> rcases hy : p2.speed with _ | t <;>
    simp_all [applyingFlag]

theorem detectAspect_pos (p1 p2 : PlanetPosition) (d : AspectDef)
    (h : |angleDifference p1.longitude p2.longitude - d.angle| ≤ d.orb) :
    detectAspect p1 p2 d = some
      ⟨p1.id, p2.id, d.id, d.angle, angleDifference p1.longitude p2.longitude,
       |angleDifference p1.longitude p2.longitude - d.angle|,
       applyingFlag p1 p2,
       1 - |angleDifference p1.longitude p2.longitude - d.angle| / d.orb,
       (1 - |angleDifference p1.longitude p2.longitude - d.angle| / d.orb) * d.weight *
         ((PLANET_WEIGHTS p1.id).getD 1 + (PLANET_WEIGHTS p2.id).getD 1) / 20⟩ := by
  simp only [detectAspect]
  rw [if_pos h]

theorem detectAspect_neg (p1 p2 : PlanetPosition) (d : AspectDef)
    (h : ¬ |angleDifference p1.longitude p2.longitude - d.angle| ≤ d.orb) :
    detectAspect p1 p2 d = none := by
  simp only [detectAspect]
  rw [if_neg h]

/-- Claim C7 (amended): swapping the two positions preserves the entire
pair-angle geometry (aspect type, exact and actual angle, orb, strength,
weight, and detection itself).  The applying/separating flag does not in
general flip: it is computed symmetrically, so it coincides for both
argument orders whenever both speeds are present and the longitudes are not
exactly conjunct or exactly opposite; with a missing speed it defaults to
`true` in both orders; only at an exact 0 or 180 degree separation with
distinct speeds does swapping flip it. -/
theorem detectAspect_swap_geometry (p1 p2 : PlanetPosition) (d : AspectDef) :
    (detectAspect p1 p2 d).map aspectGeom = (detectAspect p2 p1 d).map aspectGeom ∧
    ((p1.speed = none ∨ p2.speed = none) →
      (detectAspect p1 p2 d).map AspectData.applying
        = (detectAspect p2 p1 d).map AspectData.applying) ∧
    (∀ s1 s2, p1.speed = some s1 → p2.speed = some s2 →
      normalizeAngle (p2.longitude - p1.longitude) ≠ 0 →
      normalizeAngle (p2.longitude - p1.longitude) ≠ 180 →
      (detectAspect p1 p2 d).map AspectData.applying
        = (detectAspect p2 p1 d).map AspectData.applying) ∧
    (∀ s1 s2, p1.speed = some s1 → p2.speed = some s2 →
      (normalizeAngle (p2.longitude - p1.longitude) = 0 ∨
        normalizeAngle (p2.longitude - p1.longitude) = 180) → s1 ≠ s2 →
      (detectAspect p2 p1 d).map AspectData.applying
        = (detectAspect p1 p2 d).map (fun a => !a.applying)) := by
  have hangle : angleDifference p2.longitude p1.longitude
      = angleDifference p1.longitude p2.longitude :=
    angleDifference_symm p1.longitude p2.longitude
  by_cases hdet : |angleDifference p1.longitude p2.longitude - d.angle| ≤ d.orb
  · have hdet2 : |angleDifference p2.longitude p1.longitude - d.angle| ≤ d.orb := by
      rwa [hangle]
    have e1 := detectAspect_pos p1 p2 d hdet
    have e2 := detectAspect_pos p2 p1 d hdet2
    refine ⟨?_, ?_, ?_, ?_⟩
    · rw [e1, e2, hangle,
        add_comm ((PLANET_WEIGHTS p1.id).getD 1) ((PLANET_WEIGHTS p2.id).getD 1)]
      simp only [Option.map_some', aspectGeom]
    · intro h
      rw [e1, e2]
      simp only [Option.map_some', Option.some.injEq]
      rw [(applyingFlag_default p1 p2 h).1, (applyingFlag_default p1 p2 h).2]
    · intro s1 s2 h1 h2 hne0 hne180
      rw [e1, e2]
      simp only [Option.map_some', Option.some.injEq]
      exact (applyingFlag_swap p1 p2 s1 s2 h1 h2 hne0 hne180).symm
    · intro s1 s2 h1 h2 hdeg hne
      rw [e1, e2]
      simp only [Option.map_some', Option.some.injEq]
      exact applyingFlag_swap_flip p1 p2 s1 s2 h1 h2 hdeg hne
  · have hdet2 : ¬ |angleDifference p2.longitude p1.longitude - d.angle| ≤ d.orb := by
      rwa [hangle]
    rw [detectAspect_neg p1 p2 d hdet, detectAspect_neg p2 p1 d hdet2]
    simp

/-- Concrete positions used to exercise the aspect detector: the Sun at
longitude 0 with speed 1, the Moon at longitude 90 with speed 0, and the
`square` entry of the `ASPECTS` table. -/
def sunPosC7 : PlanetPosition := ⟨"sun", 0, 0, some 1⟩

def moonPosC7 : PlanetPosition := ⟨"moon", 90, 0, some 0⟩

def squareDef : AspectDef := ⟨"square", "四分", 90, 8, "tense", 8⟩

/-- Claim C7 counterexample: a detected exact square between two bodies with
known speeds, where the applying/separating flag is `true` for BOTH argument
orders — it does not flip when the positions are swapped. -/
theorem detectAspect_no_flip_counterexample :
    (detectAspect sunPosC7 moonPosC7 squareDef).map AspectData.applying = some true ∧
    (detectAspect moonPosC7 sunPosC7 squareDef).map AspectData.applying = some true := by
  have hn0 : normalizeAngle (0 : ℚ) = 0 :=
    normalizeAngle_eq_self (by norm_num) (by norm_num)
  have hn90 : normalizeAngle (90 : ℚ) = 90 :=
    normalizeAngle_eq_self (by norm_num) (by norm_num)
  have hn270 : normalizeAngle (-90 : ℚ) = 270 := by
    rw [normalizeAngle_congr (-1) (by norm_num : (-90 : ℚ) - 270 = 360 * ((-1 : ℤ) : ℚ))]
    exact normalizeAngle_eq_self (by norm_num) (by norm_num)
  have hAD : angleDifference (0 : ℚ) 90 = 90 := by
    simp only [angleDifference]
    rw [hn0, hn90]
    rw [if_neg (show ¬((0 : ℚ) - 90 > 180) by norm_num),
      if_neg (show ¬((0 : ℚ) - 90 < -180) by norm_num)]
    rw [show (0 : ℚ) - 90 = -90 by norm_num, abs_neg]
    exact abs_of_nonneg (by norm_num)
  have hAD2 : angleDifference (90 : ℚ) 0 = 90 := by
    simp only [angleDifference]
    rw [hn0, hn90]
    rw [if_neg (show ¬((90 : ℚ) - 0 > 180) by norm_num),
      if_neg (show ¬((90 : ℚ) - 0 < -180) by norm_num)]
    rw [show (90 : ℚ) - 0 = 90 by norm_num]
    exact abs_of_nonneg (by norm_num)
  constructor
  · have hcond : |angleDifference sunPosC7.longitude moonPosC7.longitude -
        squareDef.angle| ≤ squareDef.orb := by
      show |angleDifference (0 : ℚ) 90 - 90| ≤ 8
      rw [hAD]
      norm_num
    rw [detectAspect_pos _ _ _ hcond]
    simp only [Option.map_some', Option.some.injEq]
    show applyingFlag sunPosC7 moonPosC7 = true
    norm_num [applyingFlag, sunPosC7, moonPosC7, hn90]
  · have hcond : |angleDifference moonPosC7.longitude sunPosC7.longitude -
        squareDef.angle| ≤ squareDef.orb := by
      show |angleDifference (90 : ℚ) 0 - 90| ≤ 8
      rw [hAD2]
      norm_num
    rw [detectAspect_pos _ _ _ hcond]
    simp only [Option.map_some', Option.some.injEq]
    show applyingFlag moonPosC7 sunPosC7 = true
    norm_num [applyingFlag, moonPosC7, sunPosC7, hn270]

theorem detectAspect_swap_geometry_witness :
    (detectAspect sunPosC7 moonPosC7 squareDef).map aspectGeom
      = (detectAspect moonPosC7 sunPosC7 squareDef).map aspectGeom ∧
    (detectAspect sunPosC7 moonPosC7 squareDef).map AspectData.applying
      = (detectAspect moonPosC7 sunPosC7 squareDef).map AspectData.applying := by
  have hn90 : normalizeAngle (90 : ℚ) = 90 :=
    normalizeAngle_eq_self (by norm_num) (by norm_num)
  have h := detectAspect_swap_geometry sunPosC7 moonPosC7 squareDef
  refine ⟨h.1, h.2.2.1 1 0 rfl rfl ?_ ?_⟩
  · norm_num [sunPosC7, moonPosC7, hn90]
  · norm_num [sunPosC7, moonPosC7, hn90]

/-! ### Influence factor pipeline (influence-factors module)

JS numbers are modelled by rationals.  `Math.pow(x, 1.5)` in the orb-decay
factor is not rational-valued, so the pipeline takes the function as the
explicit parameter `pow15`; every theorem quantifies over it (and the real
`Math.pow` is one admissible instantiation).  `Date` values are modelled by
their epoch milliseconds. -/

/-- JavaScript `Array.prototype.join(sep)`. -/
def joinSep (sep : String) : List String → String
  | [] => ""
  | [x] => x
  | x :: xs => x ++ sep ++ joinSep sep xs

/-- The id/name pairs of the `PLANETS` constant (constants module), as read
by the pipeline through `PLANETS.find(p => p.id === x)?.name`. -/
def planetName (planetId : String) : Option String :=
  if planetId = "sun" then some "太阳"
  else if planetId = "moon" then some "月亮"
  else if planetId = "mercury" then some "水星"
  else if planetId = "venus" then some "金星"
  else if planetId = "mars" then some "火星"
  else if planetId = "jupiter" then some "木星"
  else if planetId = "saturn" then some "土星"
  else if planetId = "uranus" then some "天王星"
  else if planetId = "neptune" then some "海王星"
  else if planetId = "pluto" then some "冥王星"
  else if planetId = "northNode" then some "北交点"
  else if planetId = "chiron" then some "凯龙星"
  else none

/-- JS template interpolation of a possibly-missing planet name:
`${planetInfo?.name}` renders the string `undefined` when the lookup fails. -/
def planetNameStr (planetId : String) : String :=
  (planetName planetId).getD "undefined"

/-- The id/element pairs of the `ZODIAC_SIGNS` constant, as read through
`ZODIAC_SIGNS.find(s => s.id === x)` for its `element` field. -/
def zodiacElement (signId : String) : Option String :=
  if signId = "aries" then some "fire"
  else if signId = "taurus" then some "earth"
  else if signId = "gemini" then some "air"
  else if signId = "cancer" then some "water"
  else if signId = "leo" then some "fire"
  else if signId = "virgo" then some "earth"
  else if signId = "libra" then some "air"
  else if signId = "scorpio" then some "water"
  else if signId = "sagittarius" then some "fire"
  else if signId = "capricorn" then some "earth"
  else if signId = "aquarius" then some "air"
  else if signId = "pisces" then some "water"
  else none

/-- Embeds `DIGNITY_TABLE` (influence-factors module, lines 186-199); a
missing entry is `0` (the `|| 0` in the source). -/
def DIGNITY_TABLE (planet sign : String) : ℚ :=
  match planet, sign with
  | "sun", "leo" => 5 | "sun", "aries" => 4
  | "sun", "aquarius" => -5 | "sun", "libra" => -4
  | "moon", "cancer" => 5 | "moon", "taurus" => 4
  | "moon", "capricorn" => -5 | "moon", "scorpio" => -4
  | "mercury", "gemini" => 5 | "mercury", "virgo" => 5
  | "mercury", "sagittarius" => -5 | "mercury", "pisces" => -5
  | "venus", "taurus" => 5 | "venus", "libra" => 5 | "venus", "pisces" => 4
  | "venus", "aries" => -5 | "venus", "scorpio" => -5 | "venus", "virgo" => -4
  | "mars", "aries" => 5 | "mars", "scorpio" => 5 | "mars", "capricorn" => 4
  | "mars", "libra" => -5 | "mars", "taurus" => -5 | "mars", "cancer" => -4
  | "jupiter", "sagittarius" => 5 | "jupiter", "pisces" => 5 | "jupiter", "cancer" => 4
  | "jupiter", "gemini" => -5 | "jupiter", "virgo" => -5 | "jupiter", "capricorn" => -4
  | "saturn", "capricorn" => 5 | "saturn", "aquarius" => 5 | "saturn", "libra" => 4
  | "saturn", "cancer" => -5 | "saturn", "leo" => -5 | "saturn", "aries" => -4
  | "uranus", "aquarius" => 5 | "uranus", "scorpio" => 4
  | "uranus", "leo" => -5 | "uranus", "taurus" => -4
  | "neptune", "pisces" => 5 | "neptune", "cancer" => 4
  | "neptune", "virgo" => -5 | "neptune", "capricorn" => -4
  | "pluto", "scorpio" => 5 | "pluto", "aries" => 4
  | "pluto", "taurus" => -5 | "pluto", "libra" => -4
  | _, _ => 0

/-- Pipeline view of a `PlanetPlacement` (natal-chart module): the fields the
influence-factor pipeline reads. -/
structure PlanetPlacement where
  id : String
  sign : String
  signName : String
  house : ℚ

/-- Pipeline view of a `NatalChart`: the fields the influence-factor
pipeline reads. -/
structure NatalChart where
  planets : List PlanetPlacement
  dominantPlanets : List String

/-- Embeds the `weights` record of `InfluenceFactorConfig`. -/
structure FactorWeights where
  dignity : ℚ
  retrograde : ℚ
  aspectPhase : ℚ
  aspectOrb : ℚ
  outerPlanet : ℚ
  profectionLord : ℚ
  lunarPhase : ℚ
  planetaryHour : ℚ
  personal : ℚ
  custom : ℚ

/-- Embeds a `CustomFactor` condition: the tagged variants handled by
`checkCustomCondition`; the `aspect` and `custom` tags fall into the switch
default.  A `date_range` carries its start and end epoch milliseconds
(field `stop` stands for the source's `end`, a Lean keyword). -/
inductive CustomCondition where
  | always
  | dateRange (start stop : ℚ)
  | transit (planet : String)
  | planetInSign (planet sign : String)
  | aspectCond
  | customCond

/-- Embeds the `effects` record of a `CustomFactor`: one optional
coefficient per dimension, iterated in interface order. -/
structure CustomFactorEffects where
  overall : Option ℚ := none
  career : Option ℚ := none
  relationship : Option ℚ := none
  health : Option ℚ := none
  finance : Option ℚ := none
  spiritual : Option ℚ := none

/-- Embeds `CustomFactor`. -/
structure CustomFactor where
  id : String
  name : String
  description : String
  condition : CustomCondition
  effects : CustomFactorEffects
  priority : ℚ

/-- Embeds `InfluenceFactorConfig`. -/
structure InfluenceFactorConfig where
  enabled : Bool
  weights : FactorWeights
  customFactors : List CustomFactor

/-- The five named life dimensions of the score records. -/
structure DimensionScores where
  career : ℚ
  relationship : ℚ
  health : ℚ
  finance : ℚ
  spiritual : ℚ

/-- Embeds the `rawScores`/`adjustedScores` shape. -/
structure RawScores where
  overall : ℚ
  dimensions : DimensionScores

/-- Embeds `currentState` of `FactorContext`. -/
structure CurrentState where
  age : ℚ
  profectionHouse : ℚ
  lordOfYear : String
  lunarPhase : String
  planetaryDay : String
  planetaryHour : String
  moonSign : String

/-- Embeds `FactorContext`; `date` is the epoch milliseconds. -/
structure FactorContext where
  natalChart : NatalChart
  date : ℚ
  rawScores : RawScores
  currentState : CurrentState
  activeTransits : List AspectData

/-- Embeds `AppliedFactor`. -/
structure AppliedFactor where
  id : String
  name : String
  type : String
  adjustment : ℚ
  dimension : String
  reason : String

/-- Embeds `FactorResult`. -/
structure FactorResult where
  adjustedScores : RawScores
  appliedFactors : List AppliedFactor
  totalAdjustment : ℚ
  summary : String

/-- Embeds `calculateDignityFactor` (lines 204-237). -/
def calculateDignityFactor (chart : NatalChart) (weight : ℚ) : List AppliedFactor :=
  chart.planets.flatMap fun planet =>
    if ["sun", "moon", "mercury", "venus", "mars"].contains planet.id then
      let dignityScore := DIGNITY_TABLE planet.id planet.sign
      if dignityScore ≠ 0 then
        [{ id := "dignity_" ++ planet.id,
           name := planetNameStr planet.id ++ "尊贵度",
           type := "dignity",
           adjustment := dignityScore / 5 * 3 * weight,
           dimension := "overall",
           reason :=
             if dignityScore > 0 then
               planetNameStr planet.id ++ "在" ++ planet.signName ++
                 (if dignityScore = 5 then "入庙" else "入旺") ++ "，力量增强"
             else
               planetNameStr planet.id ++ "在" ++ planet.signName ++
                 (if dignityScore = -5 then "入陷" else "落陷") ++ "，力量减弱" }]
      else []
    else []

/-- Embeds `calculateAspectPhaseFactor` (lines 246-275). -/
def calculateAspectPhaseFactor (aspects : List AspectData) (weight : ℚ) :
    List AppliedFactor :=
  (aspects.take 3).map fun aspect =>
    let phaseMultiplier : ℚ := if aspect.applying then 1.1 else 0.8
    let adjustment := aspect.weight * phaseMultiplier * 0.8 * weight
    { id := "aspect_phase_" ++ aspect.planet1 ++ "_" ++ aspect.planet2,
      name := planetNameStr aspect.planet1 ++ aspect.aspectType ++
        planetNameStr aspect.planet2,
      type := "aspectPhase",
      adjustment := if aspect.applying then adjustment else -adjustment * 0.5,
      dimension := "overall",
      reason := if aspect.applying then "入相位，影响正在增强" else "出相位，影响正在消退" }

/-- Renders a rational with one fixed decimal, modelling JS
`Number.prototype.toFixed(1)` on the non-negative orbs that reach it. -/
def toFixed1 (q : ℚ) : String :=
  let scaled : ℤ := ⌊q * 10 + 1 / 2⌋
  toString (scaled / 10) ++ "." ++ toString (scaled % 10)

/-- Embeds `calculateOrbDecayFactor` (lines 280-307); `pow15` stands for
`Math.pow(·, 1.5)`. -/
def calculateOrbDecayFactor (pow15 : ℚ → ℚ) (aspects : List AspectData)
    (weight : ℚ) : List AppliedFactor :=
  (aspects.take 2).flatMap fun aspect =>
    let orbDecay := pow15 aspect.strength
    let baseAdjustment := aspect.weight * 0.5
    let adjustment := baseAdjustment * orbDecay * weight
    if aspect.orb < 1 then
      [{ id := "orb_exact_" ++ aspect.planet1 ++ "_" ++ aspect.planet2,
         name := "精确相位",
         type := "aspectOrb",
         adjustment := adjustment,
         dimension := "overall",
         reason := "相位容许度仅 " ++ toFixed1 aspect.orb ++ "°，影响极强" }]
    else []

/-- Embeds `calculateOuterPlanetFactor` (lines 326-396). -/
def calculateOuterPlanetFactor (age : ℚ) (weight : ℚ) : List AppliedFactor :=
  let saturnCycle := jsMod age 29.5
  let saturnPart : List AppliedFactor :=
    if saturnCycle < 1 ∨ saturnCycle > 28.5 then
      [{ id := "saturn_return", name := "土星回归", type := "outerPlanet",
         adjustment := -15 * weight, dimension := "overall",
         reason := "土星回归期，人生结构性调整与考验" }]
    else if |saturnCycle - 7| < 1 then
      [{ id := "saturn_square_1", name := "土星四分", type := "outerPlanet",
         adjustment := -8 * weight, dimension := "career",
         reason := "土星四分期，事业面临压力测试" }]
    else if |saturnCycle - 14.75| < 1 then
      [{ id := "saturn_opposition", name := "土星对冲", type := "outerPlanet",
         adjustment := -10 * weight, dimension := "overall",
         reason := "土星对冲期，需要平衡责任与自我" }]
    else []
  let uranusPart : List AppliedFactor :=
    if age ≥ 41 ∧ age ≤ 43 then
      [{ id := "uranus_opposition", name := "天王星对冲", type := "outerPlanet",
         adjustment := -12 * weight, dimension := "overall",
         reason := "中年觉醒危机，渴望打破常规" },
       { id := "uranus_opposition_spiritual", name := "天王星觉醒", type := "outerPlanet",
         adjustment := 15 * weight, dimension := "spiritual",
         reason := "灵性觉醒的重要时期" }]
    else []
  let chironPart : List AppliedFactor :=
    if age ≥ 49 ∧ age ≤ 51 then
      [{ id := "chiron_return", name := "凯龙回归", type := "outerPlanet",
         adjustment := 10 * weight, dimension := "spiritual",
         reason := "深层疗愈期，整合人生伤痛" }]
    else []
  saturnPart ++ uranusPart ++ chironPart

/-- Renders a JS number used in template text; exact on integers, which are
the only house values produced by the chart constructor. -/
def jsNumberToString (q : ℚ) : String :=
  if q.den = 1 then toString q.num else toString q

/-- The `houseInfluence` lookup inside `calculateProfectionLordFactor`
(lines 434-440). -/
def houseInfluence (house : ℚ) : Option (String × String) :=
  if house = 2 then some ("finance", "财务")
  else if house = 6 then some ("health", "健康")
  else if house = 7 then some ("relationship", "关系")
  else if house = 10 then some ("career", "事业")
  else if house = 12 then some ("spiritual", "灵性")
  else none

/-- Embeds `calculateProfectionLordFactor` (lines 405-455). -/
def calculateProfectionLordFactor (chart : NatalChart) (lordOfYear : String)
    (weight : ℚ) : List AppliedFactor :=
  match chart.planets.find? (fun p => p.id = lordOfYear) with
  | none => []
  | some lordPlacement =>
    let dignityScore := DIGNITY_TABLE lordOfYear lordPlacement.sign
    let dignityPart : List AppliedFactor :=
      if dignityScore ≠ 0 then
        [{ id := "lord_dignity",
           name := "年度主星" ++ planetNameStr lordOfYear ++ "尊贵度",
           type := "profectionLord",
           adjustment := dignityScore / 5 * 15 * weight,
           dimension := "overall",
           reason :=
             if dignityScore > 0 then
               "年度主星" ++ planetNameStr lordOfYear ++ "在" ++
                 lordPlacement.signName ++ "力量强劲，全年运势加持"
             else
               "年度主星" ++ planetNameStr lordOfYear ++ "在" ++
                 lordPlacement.signName ++ "力量减弱，全年需更多努力" }]
      else []
    let housePart : List AppliedFactor :=
      match houseInfluence lordPlacement.house with
      | some dimInfo =>
        [{ id := "lord_house_" ++ dimInfo.1,
           name := "年度主星在" ++ jsNumberToString lordPlacement.house ++ "宫",
           type := "profectionLord",
           adjustment := 10 * weight,
           dimension := dimInfo.1,
           reason := "年度主星" ++ planetNameStr lordOfYear ++ "在" ++
             jsNumberToString lordPlacement.house ++ "宫，" ++ dimInfo.2 ++
             "领域受到关注" }]
      | none => []
    dignityPart ++ housePart

/-- Embeds `LUNAR_PHASE_EFFECTS` (lines 464-473). -/
def LUNAR_PHASE_EFFECTS (phase : String) : Option (ℚ × List String) :=
  if phase = "新月期" then some (5, ["开始", "播种", "设定意图"])
  else if phase = "眉月期" then some (-3, ["挣扎", "突破", "建立动力"])
  else if phase = "上弦月期" then some (8, ["行动", "决策", "承诺"])
  else if phase = "盈凸月期" then some (5, ["完善", "准备", "调整"])
  else if phase = "满月期" then some (10, ["高峰", "收获", "照见"])
  else if phase = "亏凸月期" then some (3, ["分享", "传播", "教导"])
  else if phase = "下弦月期" then some (-5, ["释放", "重估", "转向"])
  else if phase = "残月期" then some (-8, ["结束", "休息", "预备"])
  else none

/-- Embeds `calculateLunarPhaseFactor` (lines 478-497). -/
def calculateLunarPhaseFactor (lunarPhase : String) (weight : ℚ) :
    List AppliedFactor :=
  match LUNAR_PHASE_EFFECTS lunarPhase with
  | none => []
  | some effect =>
    [{ id := "lunar_phase", name := lunarPhase, type := "lunarPhase",
       adjustment := effect.1 * weight, dimension := "overall",
       reason := lunarPhase ++ "：" ++ joinSep "、" effect.2 }]

/-- Embeds `PLANETARY_HOUR_EFFECTS` (lines 506-519). -/
def PLANETARY_HOUR_EFFECTS (planet : String) : Option (ℚ × String) :=
  if planet = "sun" then some (8, "career")
  else if planet = "moon" then some (3, "relationship")
  else if planet = "mercury" then some (5, "career")
  else if planet = "venus" then some (7, "relationship")
  else if planet = "mars" then some (-3, "health")
  else if planet = "jupiter" then some (10, "finance")
  else if planet = "saturn" then some (-5, "career")
  else if planet = "uranus" then some (2, "spiritual")
  else if planet = "neptune" then some (0, "spiritual")
  else if planet = "pluto" then some (-2, "spiritual")
  else if planet = "northNode" then some (3, "spiritual")
  else if planet = "chiron" then some (0, "health")
  else none

/-- Embeds `calculatePlanetaryHourFactor` (lines 524-556); the JS truthiness
test `if (effect.boost)` is a non-empty-string test. -/
def calculatePlanetaryHourFactor (planetaryHour : String) (weight : ℚ) :
    List AppliedFactor :=
  match PLANETARY_HOUR_EFFECTS planetaryHour, planetName planetaryHour with
  | some effect, some pname =>
    [{ id := "planetary_hour", name := pname ++ "时", type := "planetaryHour",
       adjustment := effect.1 * weight, dimension := "overall",
       reason := "当前为" ++ pname ++ "时，" ++
         (if effect.1 > 0 then "能量提升" else "需要谨慎") }] ++
    (if effect.2 ≠ "" then
      [{ id := "planetary_hour_boost_" ++ effect.2, name := pname ++ "时增益",
         type := "planetaryHour", adjustment := 5 * weight, dimension := effect.2,
         reason := pname ++ "时有利于" ++ effect.2 ++ "相关事务" }]
     else [])
  | _, _ => []

/-- Embeds `calculatePersonalFactor` (lines 565-624).  The source also
computes a `dominantElement` local from `chart.elementBalance` which it
never uses; that dead local is not modelled. -/
def calculatePersonalFactor (chart : NatalChart) (context : FactorContext)
    (weight : ℚ) : List AppliedFactor :=
  let moonPart : List AppliedFactor :=
    match chart.planets.find? (fun p => p.id = "moon") with
    | none => []
    | some natalMoon =>
      if context.currentState.moonSign ≠ "" then
        match zodiacElement natalMoon.sign,
            zodiacElement context.currentState.moonSign with
        | some natalElem, some transitElem =>
          (if natalElem = transitElem then
            [{ id := "moon_element_resonance", name := "月亮元素共鸣",
               type := "personal", adjustment := 8 * weight,
               dimension := "relationship",
               reason := "今日月亮与你的本命月亮同为" ++
                 (if natalElem = "fire" then "火"
                  else if natalElem = "earth" then "土"
                  else if natalElem = "air" then "风" else "水") ++
                 "象，情感共鸣增强" }]
           else []) ++
          (if natalMoon.sign = context.currentState.moonSign then
            [{ id := "moon_sign_exact", name := "月亮回归", type := "personal",
               adjustment := 12 * weight, dimension := "overall",
               reason := "今日月亮回到你的本命月亮星座" ++ natalMoon.signName ++
                 "，情感能量特别敏感" }]
           else [])
        | _, _ => []
      else []
  let lordPart : List AppliedFactor :=
    if chart.dominantPlanets.contains context.currentState.lordOfYear then
      [{ id := "lord_is_dominant", name := "主导行星主宰年", type := "personal",
         adjustment := 10 * weight, dimension := "overall",
         reason := "今年的年度主星" ++
           planetNameStr context.currentState.lordOfYear ++
           "正是你本命盘的主导行星之一，全年运势与个人特质高度共振" }]
    else []
  moonPart ++ lordPart

/-- Embeds `checkCustomCondition` (lines 670-698). -/
def checkCustomCondition (condition : CustomCondition) (context : FactorContext) :
    Bool :=
  match condition with
  | .always => true
  | .dateRange start stop =>
    decide (context.date ≥ start) && decide (context.date ≤ stop)
  | .transit planet =>
    context.activeTransits.any fun t =>
      decide (t.planet1 = planet) || decide (t.planet2 = planet)
  | .planetInSign planet sign =>
    match context.natalChart.planets.find? (fun p => p.id = planet) with
    | some placement => decide (placement.sign = sign)
    | none => false
  | _ => false

/-- The defined entries of a `CustomFactor.effects` record in interface
order, as produced by `Object.entries` with `undefined` values skipped. -/
def customEffectsList (effects : CustomFactorEffects) : List (String × ℚ) :=
  (match effects.overall with | some v => [("overall", v)] | none => []) ++
  (match effects.career with | some v => [("career", v)] | none => []) ++
  (match effects.relationship with | some v => [("relationship", v)] | none => []) ++
  (match effects.health with | some v => [("health", v)] | none => []) ++
  (match effects.finance with | some v => [("finance", v)] | none => []) ++
  (match effects.spiritual with | some v => [("spiritual", v)] | none => [])

/-- The sort key of the priority comparator: the priority of the custom
factor whose id matches, with the `|| 0` default. -/
def priorityOf (customFactors : List CustomFactor) (f : AppliedFactor) : ℚ :=
  ((customFactors.find? (fun c => c.id = f.id)).map (fun c => c.priority)).getD 0

/-- Stable descending insertion used to model `Array.prototype.sort` with the
comparator `(a, b) => priorityOf b - priorityOf a`: since the comparator is a
total preorder on a numeric key and JS sort is stable, the sorted result is
the unique stable descending reordering, which this insertion computes. -/
def insertDesc (customFactors : List CustomFactor) (x : AppliedFactor) :
    List AppliedFactor → List AppliedFactor
  | [] => [x]
  | y :: ys =>
    if priorityOf customFactors y < priorityOf customFactors x then x :: y :: ys
    else y :: insertDesc customFactors x ys

/-- The factor list sorted by descending priority (stable). -/
def sortByPriorityDesc (customFactors : List CustomFactor)
    (factors : List AppliedFactor) : List AppliedFactor :=
  factors.foldl (fun acc x => insertDesc customFactors x acc) []

/-- Embeds `applyCustomFactors` (lines 633-665). -/
def applyCustomFactors (customFactors : List CustomFactor)
    (context : FactorContext) (weight : ℚ) : List AppliedFactor :=
  let factors := customFactors.flatMap fun custom =>
    if checkCustomCondition custom.condition context then
      (customEffectsList custom.effects).map fun dv =>
        { id := custom.id, name := custom.name, type := "custom",
          adjustment := dv.2 * 20 * weight, dimension := dv.1,
          reason := custom.description }
    else []
  sortByPriorityDesc customFactors factors

/-- The nine guarded generator invocations of `applyInfluenceFactors`
(lines 720-775), concatenated in the fixed source order. -/
def gatherFactors (pow15 : ℚ → ℚ) (context : FactorContext)
    (config : InfluenceFactorConfig) : List AppliedFactor :=
  (if config.weights.dignity > 0 then
    calculateDignityFactor context.natalChart config.weights.dignity else []) ++
  (if config.weights.aspectPhase > 0 then
    calculateAspectPhaseFactor context.activeTransits config.weights.aspectPhase
   else []) ++
  (if config.weights.aspectOrb > 0 then
    calculateOrbDecayFactor pow15 context.activeTransits config.weights.aspectOrb
   else []) ++
  (if config.weights.outerPlanet > 0 then
    calculateOuterPlanetFactor context.currentState.age config.weights.outerPlanet
   else []) ++
  (if config.weights.profectionLord > 0 then
    calculateProfectionLordFactor context.natalChart
      context.currentState.lordOfYear config.weights.profectionLord
   else []) ++
  (if config.weights.lunarPhase > 0 then
    calculateLunarPhaseFactor context.currentState.lunarPhase
      config.weights.lunarPhase
   else []) ++
  (if config.weights.planetaryHour > 0 then
    calculatePlanetaryHourFactor context.currentState.planetaryHour
      config.weights.planetaryHour
   else []) ++
  (if config.weights.personal > 0 then
    calculatePersonalFactor context.natalChart context config.weights.personal
   else []) ++
  (if config.weights.custom > 0 ∧ config.customFactors.length > 0 then
    applyCustomFactors config.customFactors context config.weights.custom
   else [])

/-- The score-accumulation loop of `applyInfluenceFactors` (lines 777-793):
adds each factor into the overall score or its dimension, returning the
summed scores and the total overall adjustment. -/
def applyAdjustments (raw : RawScores) (factors : List AppliedFactor) :
    RawScores × ℚ :=
  factors.foldl
    (fun acc factor =>
      if factor.dimension = "overall" then
        ({ acc.1 with overall := acc.1.overall + factor.adjustment },
          acc.2 + factor.adjustment)
      else if factor.dimension = "career" then
        ({ acc.1 with dimensions :=
            { acc.1.dimensions with
                career := acc.1.dimensions.career + factor.adjustment } }, acc.2)
      else if factor.dimension = "relationship" then
        ({ acc.1 with dimensions :=
            { acc.1.dimensions with
                relationship := acc.1.dimensions.relationship + factor.adjustment } },
          acc.2)
      else if factor.dimension = "health" then
        ({ acc.1 with dimensions :=
            { acc.1.dimensions with
                health := acc.1.dimensions.health + factor.adjustment } }, acc.2)
      else if factor.dimension = "finance" then
        ({ acc.1 with dimensions :=
            { acc.1.dimensions with
                finance := acc.1.dimensions.finance + factor.adjustment } }, acc.2)
      else if factor.dimension = "spiritual" then
        ({ acc.1 with dimensions :=
            { acc.1.dimensions with
                spiritual := acc.1.dimensions.spiritual + factor.adjustment } },
          acc.2)
      else acc)
    (raw, 0)

/-- The final clamping of `applyInfluenceFactors` (lines 795-799): overall
to `[-100, 100]`, each dimension to `[0, 100]`. -/
def clampScores (s : RawScores) : RawScores :=
  { overall := max (-100) (min 100 s.overall),
    dimensions :=
      { career := max 0 (min 100 s.dimensions.career),
        relationship := max 0 (min 100 s.dimensions.relationship),
        health := max 0 (min 100 s.dimensions.health),
        finance := max 0 (min 100 s.dimensions.finance),
        spiritual := max 0 (min 100 s.dimensions.spiritual) } }

/-- The summary construction of `applyInfluenceFactors` (lines 801-815). -/
def factorSummary (allFactors : List AppliedFactor) : String :=
  let positiveFactors := allFactors.filter fun f => decide (f.adjustment > 0)
  let negativeFactors := allFactors.filter fun f => decide (f.adjustment < 0)
  let s1 := if positiveFactors.length > 0 then
      "有利因子：" ++ joinSep "、" ((positiveFactors.take 3).map fun f => f.name)
    else ""
  let s2 := if negativeFactors.length > 0 then
      (if s1 ≠ "" then s1 ++ "；" else s1) ++ "需注意：" ++
        joinSep "、" ((negativeFactors.take 3).map fun f => f.name)
    else s1
  if s2 = "" then "当前无显著影响因子" else s2

/-- Embeds `applyInfluenceFactors` (lines 707-823). -/
def applyInfluenceFactors (pow15 : ℚ → ℚ) (context : FactorContext)
    (config : InfluenceFactorConfig) : FactorResult :=
  if config.enabled = false then
    { adjustedScores := context.rawScores,
      appliedFactors := [],
      totalAdjustment := 0,
      summary := "影响因子已禁用" }
  else
    let allFactors := gatherFactors pow15 context config
    let summed := applyAdjustments context.rawScores allFactors
    { adjustedScores := clampScores summed.1,
      appliedFactors := allFactors,
      totalAdjustment := summed.2,
      summary := factorSummary allFactors }

/-- Both bounds of a two-sided clamp `max lo (min hi x)`. -/
theorem clamp_mem {lo hi x : ℚ} (h : lo ≤ hi) :
    lo ≤ max lo (min hi x) ∧ max lo (min hi x) ≤ hi :=
  ⟨le_max_left _ _, max_le h (min_le_left _ _)⟩

/-- The twelve clamping bounds claimed for a pipeline result. -/
def scoresClamped (r : FactorResult) : Prop :=
  (-100 ≤ r.adjustedScores.overall ∧ r.adjustedScores.overall ≤ 100) ∧
  (0 ≤ r.adjustedScores.dimensions.career ∧
    r.adjustedScores.dimensions.career ≤ 100) ∧
  (0 ≤ r.adjustedScores.dimensions.relationship ∧
    r.adjustedScores.dimensions.relationship ≤ 100) ∧
  (0 ≤ r.adjustedScores.dimensions.health ∧
    r.adjustedScores.dimensions.health ≤ 100) ∧
  (0 ≤ r.adjustedScores.dimensions.finance ∧
    r.adjustedScores.dimensions.finance ≤ 100) ∧
  (0 ≤ r.adjustedScores.dimensions.spiritual ∧
    r.adjustedScores.dimensions.spiritual ≤ 100)

/-- Claim C1: with the pipeline enabled, for every context, every config
(custom factors and weights unconstrained) and every `Math.pow` model, the
adjusted overall score lies in `[-100, 100]` and every dimension score in
`[0, 100]`. -/
theorem applyInfluenceFactors_clamped (pow15 : ℚ → ℚ) (context : FactorContext)
    (config : InfluenceFactorConfig) (h : config.enabled = true) :
    scoresClamped (applyInfluenceFactors pow15 context config) := by
  unfold applyInfluenceFactors
  rw [h]
  simp only [Bool.true_eq_false, if_false]
  unfold scoresClamped clampScores
  refine ⟨clamp_mem (by norm_num), clamp_mem (by norm_num),
    clamp_mem (by norm_num), clamp_mem (by norm_num),
    clamp_mem (by norm_num), clamp_mem (by norm_num)⟩

/-- Claim C5: with the pipeline disabled, it is the identity on scores, the
applied-factor list is empty and the total adjustment is zero. -/
theorem applyInfluenceFactors_disabled_identity (pow15 : ℚ → ℚ)
    (context : FactorContext) (config : InfluenceFactorConfig)
    (h : config.enabled = false) :
    (applyInfluenceFactors pow15 context config).adjustedScores =
        context.rawScores ∧
      (applyInfluenceFactors pow15 context config).appliedFactors = [] ∧
      (applyInfluenceFactors pow15 context config).totalAdjustment = 0 := by
  unfold applyInfluenceFactors
  rw [h]
  simp

/-- Claim C10: the `retrograde` weight of the config is never read by the
pipeline — changing it (and nothing else) leaves the result identical. -/
theorem applyInfluenceFactors_retrograde_unused (pow15 : ℚ → ℚ)
    (context : FactorContext) (config : InfluenceFactorConfig) (r : ℚ) :
    applyInfluenceFactors pow15 context
        { config with weights := { config.weights with retrograde := r } } =
      applyInfluenceFactors pow15 context config := by
  rcases config with ⟨en, w, cf⟩
  rcases w with ⟨d, rg, ap, ao, op, pl, lp, ph, pe, cu⟩
  rfl

/-- Claim C2 (amended): with the pipeline enabled, the summary is built by
`factorSummary` from the output applied-factor list itself: it names up to
the FIRST three positive-adjustment and FIRST three negative-adjustment
factors in generation order (custom factors sorted by descending priority),
not the three of largest magnitude. -/
theorem applyInfluenceFactors_summary_first3 (pow15 : ℚ → ℚ)
    (context : FactorContext) (config : InfluenceFactorConfig)
    (h : config.enabled = true) :
    (applyInfluenceFactors pow15 context config).summary =
      factorSummary (applyInfluenceFactors pow15 context config).appliedFactors := by
  unfold applyInfluenceFactors
  rw [h]
  simp

/-! Concrete pipeline inputs: a context with empty chart and transits, zero
raw scores, and a config whose only active generator is the custom-factor
one, with four always-on custom factors of adjustments 4, 3, 2 and 20 in
descending priority order. -/

def customA : CustomFactor :=
  ⟨"custom_a", "A", "desc a", .always, { overall := some (1 / 5) }, 4⟩

def customB : CustomFactor :=
  ⟨"custom_b", "B", "desc b", .always, { overall := some (3 / 20) }, 3⟩

def customC : CustomFactor :=
  ⟨"custom_c", "C", "desc c", .always, { overall := some (1 / 10) }, 2⟩

def customD : CustomFactor :=
  ⟨"custom_d", "D", "desc d", .always, { overall := some 1 }, 1⟩

def c2Context : FactorContext :=
  { natalChart := ⟨[], []⟩,
    date := 0,
    rawScores := ⟨0, ⟨0, 0, 0, 0, 0⟩⟩,
    currentState := ⟨0, 1, "mars", "", "sun", "sun", ""⟩,
    activeTransits := [] }

def c2Config : InfluenceFactorConfig :=
  { enabled := true,
    weights := ⟨0, 0, 0, 0, 0, 0, 0, 0, 0, 1⟩,
    customFactors := [customA, customB, customC, customD] }

set_option linter.unnecessarySeqFocus false in
/-- Claim C2 counterexample: on this run the applied factors are A(+4),
B(+3), C(+2), D(+20) in that order; the summary names A, B, C — the first
three positives — and omits D, the positive factor of largest magnitude, so
the summary is NOT selected by signed magnitude. -/
theorem summary_not_by_magnitude_counterexample :
    (applyInfluenceFactors id c2Context c2Config).appliedFactors.map
        (fun f => (f.name, f.adjustment)) =
      [("A", 4), ("B", 3), ("C", 2), ("D", 20)] ∧
    (applyInfluenceFactors id c2Context c2Config).summary = "有利因子：A、B、C" ∧
    (applyInfluenceFactors id c2Context c2Config).summary ≠ "有利因子：D、A、B" := by
  have hadjA : (1 / 5 * 20 * 1 : ℚ) = 4 := by norm_num
  have hadjB : (3 / 20 * 20 * 1 : ℚ) = 3 := by norm_num
  have hadjC : (1 / 10 * 20 * 1 : ℚ) = 2 := by norm_num
  have hadjD : ((1 : ℚ) * 20 * 1) = 20 := by norm_num
  have g0 : ¬((0 : ℚ) > 0) := by norm_num
  have g1 : ((1 : ℚ) > 0) := by norm_num
  have p43 : ¬((4 : ℚ) < 3) := by norm_num
  have p42 : ¬((4 : ℚ) < 2) := by norm_num
  have p41 : ¬((4 : ℚ) < 1) := by norm_num
  have p32 : ¬((3 : ℚ) < 2) := by norm_num
  have p31 : ¬((3 : ℚ) < 1) := by norm_num
  have p21 : ¬((2 : ℚ) < 1) := by norm_num
  have f4 : ((4 : ℚ) > 0) := by norm_num
  have f3 : ((3 : ℚ) > 0) := by norm_num
  have f2 : ((2 : ℚ) > 0) := by norm_num
  have f20 : ((20 : ℚ) > 0) := by norm_num
  have n4 : ¬((4 : ℚ) < 0) := by norm_num
  have n3 : ¬((3 : ℚ) < 0) := by norm_num
  have n2 : ¬((2 : ℚ) < 0) := by norm_num
  have n20 : ¬((20 : ℚ) < 0) := by norm_num
  refine ⟨?_, ?_, ?_⟩ <;>
    simp [applyInfluenceFactors, gatherFactors, c2Context, c2Config,
      applyCustomFactors, checkCustomCondition, customEffectsList,
      sortByPriorityDesc, insertDesc, priorityOf, customA, customB, customC,
      customD, factorSummary, joinSep, List.find?, g0, g1, hadjA, hadjB, hadjC,
      hadjD, p43, p42, p41, p32, p31, p21, f4, f3, f2, f20, n4, n3, n2, n20] <;>
    norm_num

theorem applyInfluenceFactors_clamped_witness :
    c2Config.enabled = true ∧
      scoresClamped (applyInfluenceFactors id c2Context c2Config) :=
  ⟨rfl, applyInfluenceFactors_clamped id c2Context c2Config rfl⟩

def c5Config : InfluenceFactorConfig := { c2Config with enabled := false }

theorem applyInfluenceFactors_disabled_identity_witness :
    c5Config.enabled = false ∧
      ((applyInfluenceFactors id c2Context c5Config).adjustedScores =
          c2Context.rawScores ∧
        (applyInfluenceFactors id c2Context c5Config).appliedFactors = [] ∧
        (applyInfluenceFactors id c2Context c5Config).totalAdjustment = 0) :=
  ⟨rfl, applyInfluenceFactors_disabled_identity id c2Context c5Config rfl⟩

theorem applyInfluenceFactors_summary_first3_witness :
    c2Config.enabled = true ∧
      (applyInfluenceFactors id c2Context c2Config).summary =
        factorSummary (applyInfluenceFactors id c2Context c2Config).appliedFactors :=
  ⟨rfl, applyInfluenceFactors_summary_first3 id c2Context c2Config rfl⟩

/-! ### Secondary progression date arithmetic (progressions module,
lines 67-80).  Dates are epoch milliseconds. -/

/-- Embeds the `yearsFromBirth` computation of `calculateProgressedChart`
(line 74): elapsed milliseconds divided by the milliseconds of a Julian
year. -/
def yearsFromBirth (birthMs targetMs : ℚ) : ℚ :=
  (targetMs - birthMs) / (365.25 * 24 * 60 * 60 * 1000)

/-- Embeds `daysProgressed` (line 77): the day-for-year rule sets the number
of progressed days equal to the number of elapsed years. -/
def daysProgressed (birthMs targetMs : ℚ) : ℚ :=
  yearsFromBirth birthMs targetMs

/-- Embeds the `progressedDate` computation (line 78): birth time plus the
progressed days. -/
def progressedDateMs (birthMs targetMs : ℚ) : ℚ :=
  birthMs + daysProgressed birthMs targetMs * 24 * 60 * 60 * 1000

/-- Claim C3 counterexample: for a target exactly one Julian year
(365.25 days = 31557600000 ms) after birth, `yearsFromBirth` is 1 and the
progressed date lies 1 day after birth — not `yearsFromBirth * 365.25 =
365.25` days, refuting the claimed relation. -/
theorem progressedDate_counterexample :
    yearsFromBirth 0 31557600000 = 1 ∧
    (progressedDateMs 0 31557600000 - 0) / (24 * 60 * 60 * 1000) = 1 ∧
    ((progressedDateMs 0 31557600000 - 0) / (24 * 60 * 60 * 1000) ≠
      yearsFromBirth 0 31557600000 * 365.25) := by
  norm_num [yearsFromBirth, daysProgressed, progressedDateMs]

/-- Claim C3 (amended): `yearsFromBirth` equals the number of Julian years
elapsed from birth to the target date exactly; the progressed date lies
`yearsFromBirth` DAYS after birth (day-for-year), while it is the TARGET
date that lies `yearsFromBirth * 365.25` days after birth. -/
theorem progression_scale (birthMs n : ℚ) :
    yearsFromBirth birthMs (birthMs + n * (365.25 * 24 * 60 * 60 * 1000)) = n ∧
    ∀ targetMs,
      (progressedDateMs birthMs targetMs - birthMs) / (24 * 60 * 60 * 1000) =
          yearsFromBirth birthMs targetMs ∧
        (targetMs - birthMs) / (24 * 60 * 60 * 1000) =
          yearsFromBirth birthMs targetMs * 365.25 := by
  constructor
  · unfold yearsFromBirth
    field_simp
  · intro t
    unfold progressedDateMs daysProgressed yearsFromBirth
    constructor
    · field_simp
      ring
    · field_simp
      ring

/-! ### Equal-house cusps and house assignment (ephemeris module lines
930-939 and natal-chart module lines 98-119) -/

/-- Embeds `calculateHouseCusps` as a function of the ascendant (which the
source first computes via `calculateAscendant`): twelve equal-house cusps at
the ascendant plus multiples of 30 degrees, each normalized. -/
def calculateHouseCusps (asc : ℚ) : List ℚ :=
  (List.range 12).map fun i : ℕ => normalizeAngle (asc + (i : ℚ) * 30)

/-- The bracket test of one iteration of the `getHouse` loop: `start` is
cusp `i`, `end` is cusp `(i+1) % 12`, with the wraparound branch when the
end cusp is numerically below the start cusp. -/
def houseTest (houseCusps : List ℚ) (normalizedLong : ℚ) (i : ℕ) : Bool :=
  if houseCusps.getD ((i + 1) % 12) 0 < houseCusps.getD i 0 then
    decide (normalizedLong ≥ houseCusps.getD i 0) ||
      decide (normalizedLong < houseCusps.getD ((i + 1) % 12) 0)
  else
    decide (normalizedLong ≥ houseCusps.getD i 0) &&
      decide (normalizedLong < houseCusps.getD ((i + 1) % 12) 0)

/-- Embeds `getHouse`: normalize the longitude, return the first house index
(1-based) whose bracket matches, defaulting to house 1. -/
def getHouse (longitude : ℚ) (houseCusps : List ℚ) : ℕ :=
  match (List.range 12).find? (houseTest houseCusps (normalizeAngle longitude)) with
  | some i => i + 1
  | none => 1

theorem cusps_getD (asc : ℚ) {i : ℕ} (h : i < 12) :
    (calculateHouseCusps asc).getD i 0 = normalizeAngle (asc + (i : ℚ) * 30) := by
  unfold calculateHouseCusps
  rw [List.getD_eq_getElem?_getD, List.getElem?_map, List.getElem?_range h]
  rfl

theorem normalizeAngle_sub_normalizeAngle (x y : ℚ) :
    normalizeAngle (normalizeAngle x - normalizeAngle y) = normalizeAngle (x - y) := by
  apply normalizeAngle_congr (⌊y / 360⌋ - ⌊x / 360⌋)
  rw [normalizeAngle_eq_fract x, normalizeAngle_eq_fract y]
  unfold Int.fract
  push_cast
  field_simp
  ring

theorem normalizeAngle_sub_right (x y : ℚ) :
    normalizeAngle (x - normalizeAngle y) = normalizeAngle (x - y) := by
  apply normalizeAngle_congr ⌊y / 360⌋
  rw [normalizeAngle_eq_fract y]
  unfold Int.fract
  field_simp

theorem normalizeAngle_sub_left (x t : ℚ) :
    normalizeAngle (normalizeAngle x - t) = normalizeAngle (x - t) := by
  apply normalizeAngle_congr (-⌊x / 360⌋)
  rw [normalizeAngle_eq_fract x]
  unfold Int.fract
  push_cast
  field_simp

theorem arc_eq_30 (asc : ℚ) (i : ℕ) (h : i < 12) :
    normalizeAngle ((calculateHouseCusps asc).getD ((i + 1) % 12) 0 -
      (calculateHouseCusps asc).getD i 0) = 30 := by
  have hjlt : (i + 1) % 12 < 12 := Nat.mod_lt _ (by norm_num)
  rw [cusps_getD asc hjlt, cusps_getD asc h, normalizeAngle_sub_normalizeAngle]
  rw [show (asc + (((i + 1) % 12 : ℕ) : ℚ) * 30) - (asc + (i : ℚ) * 30)
      = (((i + 1) % 12 : ℕ) : ℚ) * 30 - (i : ℚ) * 30 by ring]
  rcases Nat.lt_or_ge i 11 with hi | hi
  · rw [show (i + 1) % 12 = i + 1 from Nat.mod_eq_of_lt (by omega)]
    rw [show (((i + 1 : ℕ) : ℚ)) * 30 - (i : ℚ) * 30 = 30 by push_cast; ring]
    exact normalizeAngle_eq_self (by norm_num) (by norm_num)
  · have hi11 : i = 11 := by omega
    subst hi11
    rw [show (((11 + 1) % 12 : ℕ) : ℚ) * 30 - ((11 : ℕ) : ℚ) * 30 = -330 by norm_num]
    have hcongr : normalizeAngle (-330 : ℚ) = normalizeAngle 30 :=
      normalizeAngle_congr (-1) (by push_cast; ring)
    rw [hcongr]
    exact normalizeAngle_eq_self (by norm_num) (by norm_num)

theorem arcs_sum (asc : ℚ) :
    ((List.range 12).map fun i =>
      normalizeAngle ((calculateHouseCusps asc).getD ((i + 1) % 12) 0 -
        (calculateHouseCusps asc).getD i 0)).sum = 360 := by
  rw [List.map_congr_left
    (fun i hi => arc_eq_30 asc i (List.mem_range.mp hi))]
  simp [List.map_const']
  norm_num

theorem find?_eq_some_of_unique {α : Type*} (p : α → Bool) (a : α) :
    ∀ l : List α, a ∈ l → p a = true →
      (∀ b ∈ l, p b = true → b = a) → l.find? p = some a := by
  intro l
  induction l with
  | nil => intro h _ _; simp at h
  | cons x xs ih =>
    intro h hpa hu
    by_cases hx : p x = true
    · have hxa : x = a := hu x (by simp) hx
      subst hxa
      rw [List.find?_cons_of_pos _ hx]
    · rw [List.find?_cons_of_neg _ (by simpa using hx)]
      apply ih
      · rcases List.mem_cons.mp h with h1 | h2
        · exact absurd (h1 ▸ hpa) hx
        · exact h2
      · exact hpa
      · exact fun b hb hpb => hu b (List.mem_cons_of_mem _ hb) hpb

theorem houseTest_iff (asc : ℚ) {n : ℚ} (hn0 : 0 ≤ n) (hn1 : n < 360)
    {i : ℕ} (h : i < 12) :
    houseTest (calculateHouseCusps asc) n i = true ↔
      normalizeAngle (n - (asc + i * 30)) < 30 := by
  have hjlt : (i + 1) % 12 < 12 := Nat.mod_lt _ (by norm_num)
  set s := normalizeAngle (asc + i * 30) with hsdef
  set e := normalizeAngle (asc + ((i + 1) % 12 : ℕ) * 30) with hedef
  have hgs : (calculateHouseCusps asc).getD i 0 = s := cusps_getD asc h
  have hge : (calculateHouseCusps asc).getD ((i + 1) % 12) 0 = e := cusps_getD asc hjlt
  have hs0 : 0 ≤ s := normalizeAngle_nonneg _
  have hs1 : s < 360 := normalizeAngle_lt_360 _
  have he0 : 0 ≤ e := normalizeAngle_nonneg _
  have he1 : e < 360 := normalizeAngle_lt_360 _
  have h30 : normalizeAngle (e - s) = 30 := by
    have harc := arc_eq_30 asc i h
    rwa [hgs, hge] at harc
  have hdiff : e - s = 30 ∨ e - s = -330 := by
    rcases le_or_lt 0 (e - s) with hge0 | hlt0
    · left
      have hself : normalizeAngle (e - s) = e - s :=
        normalizeAngle_eq_self hge0 (by linarith)
      rw [hself] at h30
      linarith
    · right
      have hself : normalizeAngle (e - s) = e - s + 360 := by
        have hcongr : normalizeAngle (e - s) = normalizeAngle (e - s + 360) :=
          normalizeAngle_congr (-1) (by push_cast; ring)
        rw [hcongr]
        exact normalizeAngle_eq_self (by linarith) (by linarith)
      rw [hself] at h30
      linarith
  have hrhs : normalizeAngle (n - (asc + i * 30)) = normalizeAngle (n - s) := by
    rw [hsdef, normalizeAngle_sub_right]
  unfold houseTest
  rw [hgs, hge]
  rcases hdiff with h30' | h330
  · have hnotlt : ¬(e < s) := by linarith
    rw [if_neg hnotlt]
    simp only [Bool.and_eq_true, decide_eq_true_eq]
    constructor
    · rintro ⟨hns, hne⟩
      have hself : normalizeAngle (n - s) = n - s :=
        normalizeAngle_eq_self (by linarith) (by linarith)
      rw [hrhs, hself]
      linarith
    · intro hlt
      by_cases hns : s ≤ n
      · have hself : normalizeAngle (n - s) = n - s :=
          normalizeAngle_eq_self (by linarith) (by linarith)
        rw [hrhs, hself] at hlt
        exact ⟨hns, by linarith⟩
      · exfalso
        push_neg at hns
        have hself : normalizeAngle (n - s) = n - s + 360 := by
          have hcongr : normalizeAngle (n - s) = normalizeAngle (n - s + 360) :=
            normalizeAngle_congr (-1) (by push_cast; ring)
          rw [hcongr]
          exact normalizeAngle_eq_self (by linarith) (by linarith)
        rw [hrhs, hself] at hlt
        linarith
  · have hlt' : e < s := by linarith
    rw [if_pos hlt']
    simp only [Bool.or_eq_true, decide_eq_true_eq]
    constructor
    · rintro (hns | hne)
      · have hself : normalizeAngle (n - s) = n - s :=
          normalizeAngle_eq_self (by linarith) (by linarith)
        rw [hrhs, hself]
        linarith
      · have hself : normalizeAngle (n - s) = n - s + 360 := by
          have hcongr : normalizeAngle (n - s) = normalizeAngle (n - s + 360) :=
            normalizeAngle_congr (-1) (by push_cast; ring)
          rw [hcongr]
          exact normalizeAngle_eq_self (by linarith) (by linarith)
        rw [hrhs, hself]
        linarith
    · intro hlt
      by_cases hns : s ≤ n
      · exact Or.inl hns
      · right
        push_neg at hns
        have hself : normalizeAngle (n - s) = n - s + 360 := by
          have hcongr : normalizeAngle (n - s) = normalizeAngle (n - s + 360) :=
            normalizeAngle_congr (-1) (by push_cast; ring)
          rw [hcongr]
          exact normalizeAngle_eq_self (by linarith) (by linarith)
        rw [hrhs, hself] at hlt
        linarith

/-- Claim C6: the twelve house cusps are the ascendant plus successive
multiples of 30 degrees (normalized); the arcs from each cusp to the next
sum to exactly 360 degrees; and every longitude satisfies the `getHouse`
bracket test for exactly one of the twelve houses, which is the house
`getHouse` returns. -/
theorem house_partition (asc longitude : ℚ) :
    calculateHouseCusps asc =
        ((List.range 12).map fun i : ℕ => normalizeAngle (asc + (i : ℚ) * 30)) ∧
      ((List.range 12).map fun i =>
        normalizeAngle ((calculateHouseCusps asc).getD ((i + 1) % 12) 0 -
          (calculateHouseCusps asc).getD i 0)).sum = 360 ∧
      ∃ i : ℕ, i < 12 ∧
        houseTest (calculateHouseCusps asc) (normalizeAngle longitude) i = true ∧
        (∀ j, j < 12 →
          houseTest (calculateHouseCusps asc) (normalizeAngle longitude) j = true →
            j = i) ∧
        getHouse longitude (calculateHouseCusps asc) = i + 1 := by
  refine ⟨rfl, arcs_sum asc, ?_⟩
  set n := normalizeAngle longitude with hndef
  have hn0 : 0 ≤ n := normalizeAngle_nonneg _
  have hn1 : n < 360 := normalizeAngle_lt_360 _
  set d := normalizeAngle (n - asc) with hddef
  have hd0 : 0 ≤ d := normalizeAngle_nonneg _
  have hd1 : d < 360 := normalizeAngle_lt_360 _
  have hfl0 : 0 ≤ ⌊d / 30⌋ := Int.floor_nonneg.mpr (by positivity)
  have hfl12 : ⌊d / 30⌋ < 12 := by
    rw [Int.floor_lt]
    push_cast
    rw [div_lt_iff₀ (by norm_num : (0 : ℚ) < 30)]
    linarith
  set i0 : ℕ := (⌊d / 30⌋).toNat with hi0def
  have hi0lt : i0 < 12 := by
    rw [hi0def]
    omega
  have hcast : ((i0 : ℕ) : ℚ) = ((⌊d / 30⌋ : ℤ) : ℚ) := by
    rw [hi0def]
    exact_mod_cast congrArg (fun z : ℤ => (z : ℚ)) (Int.toNat_of_nonneg hfl0)
  have h30d : (30 : ℚ) * (d / 30) = d := by ring
  have hub1 : (i0 : ℚ) * 30 ≤ d := by
    have hle := Int.floor_le (d / 30)
    rw [hcast]
    nlinarith
  have hub2 : d < ((i0 : ℚ) + 1) * 30 := by
    have hlt := Int.lt_floor_add_one (d / 30)
    rw [hcast]
    nlinarith
  have hchar : ∀ j : ℕ, j < 12 →
      (houseTest (calculateHouseCusps asc) n j = true ↔
        normalizeAngle (d - (j : ℚ) * 30) < 30) := by
    intro j hj
    rw [houseTest_iff asc hn0 hn1 hj]
    rw [show n - (asc + (j : ℚ) * 30) = (n - asc) - (j : ℚ) * 30 by ring]
    rw [← normalizeAngle_sub_left (n - asc) ((j : ℚ) * 30)]
  have hval : ∀ j : ℕ, j < 12 →
      (normalizeAngle (d - (j : ℚ) * 30) < 30 ↔ j = i0) := by
    intro j hj
    have hj11 : (j : ℚ) ≤ 11 := by exact_mod_cast Nat.lt_succ_iff.mp hj
    constructor
    · intro hlt
      rcases lt_trichotomy j i0 with hlt2 | heq | hgt2
      · exfalso
        have hle : (j : ℚ) + 1 ≤ (i0 : ℚ) := by exact_mod_cast hlt2
        have h1 : 30 ≤ d - (j : ℚ) * 30 := by nlinarith
        have h2 : d - (j : ℚ) * 30 < 360 := by
          have : 0 ≤ (j : ℚ) := Nat.cast_nonneg j
          nlinarith
        have hself : normalizeAngle (d - (j : ℚ) * 30) = d - (j : ℚ) * 30 :=
          normalizeAngle_eq_self (by linarith) h2
        rw [hself] at hlt
        linarith
      · exact heq
      · exfalso
        have hle : (i0 : ℚ) + 1 ≤ (j : ℚ) := by exact_mod_cast hgt2
        have h1 : d - (j : ℚ) * 30 < 0 := by nlinarith
        have h2 : -330 ≤ d - (j : ℚ) * 30 := by nlinarith
        have hcongr : normalizeAngle (d - (j : ℚ) * 30) =
            normalizeAngle (d - (j : ℚ) * 30 + 360) :=
          normalizeAngle_congr (-1) (by push_cast; ring)
        have hself : normalizeAngle (d - (j : ℚ) * 30 + 360) =
            d - (j : ℚ) * 30 + 360 :=
          normalizeAngle_eq_self (by linarith) (by linarith)
        rw [hcongr, hself] at hlt
        linarith
    · intro heq
      subst heq
      have h1 : 0 ≤ d - (i0 : ℚ) * 30 := by nlinarith
      have h2 : d - (i0 : ℚ) * 30 < 30 := by nlinarith
      rw [normalizeAngle_eq_self h1 (by linarith)]
      exact h2
  refine ⟨i0, hi0lt, (hchar i0 hi0lt).mpr ((hval i0 hi0lt).mpr rfl),
    fun j hj hpj => (hval j hj).mp ((hchar j hj).mp hpj), ?_⟩
  unfold getHouse
  rw [← hndef]
  have hfind : (List.range 12).find? (houseTest (calculateHouseCusps asc) n) =
      some i0 := by
    apply find?_eq_some_of_unique
    · exact List.mem_range.mpr hi0lt
    · exact (hchar i0 hi0lt).mpr ((hval i0 hi0lt).mpr rfl)
    · exact fun b hb hpb =>
        (hval b (List.mem_range.mp hb)).mp ((hchar b (List.mem_range.mp hb)).mp hpb)
  rw [hfind]

end Starbase
